import Mathlib

/-!
Verification development for a CWA (Taiwan Central Weather Administration)
weather-aggregator backend.  The repository holds three near-duplicate
Express/serverless handlers:

* `server.js` — the 36-hour variant (`getGeneralWeather`, dataset F-C0032-001),
  modelled in namespace `General`;
* an unnamed combined variant (`getCombinedWeather`, datasets F-D0047-091 and
  F-A0085-005), modelled in namespace `Combined`;
* an unnamed serverless week handler (`handler`), modelled in namespace
  `WeekHandler`.

Handlers are modelled as pure functions from the request (query parameters),
the environment (the `CWA_API_KEY` credential) and the upstream payloads to an
HTTP response, together with a record of which outbound fetches were issued.
A JavaScript expression that would throw a `TypeError` (e.g. indexing past the
end of an array and then dereferencing) is modelled by `Option`/`none`, which
the handler turns into the catch-all HTTP 500 branch.  JS `NaN` propagation in
`parseInt`/arithmetic is modelled by `Option Int` (`none` = `NaN`).
-/

namespace JsPrim

/-- JS falsiness of an optional string: `!x` is true for `undefined` and `""`. -/
def strFalsy : Option String → Bool
  | none => true
  | some s => s = ""

/-- Value of a decimal digit list, most significant first. -/
def digitsVal (ds : List Char) : Nat :=
  ds.foldl (fun a c => 10 * a + (c.toNat - '0'.toNat)) 0

/-- Model of JS `parseInt` on the strings this program feeds it (no radix
prefixes occur in this domain): skip leading whitespace, read an optional
sign, then the longest decimal-digit prefix; `none` models `NaN` (no digits). -/
def jsParseInt (s : String) : Option Int :=
  let cs := s.data.dropWhile Char.isWhitespace
  let signAndRest : Int × List Char :=
    match cs with
    | '-' :: rest => (-1, rest)
    | '+' :: rest => (1, rest)
    | _ => (1, cs)
  let ds := signAndRest.2.takeWhile Char.isDigit
  if ds.isEmpty then none
  else some (signAndRest.1 * (digitsVal ds : Int))

/-- JS `Math.round (s / 2)` for an integer `s`: `Math.round x = ⌊x + 1/2⌋`,
so `Math.round (s / 2) = ⌊(s + 1) / 2⌋` (floor division). -/
def jsRoundHalfOfSum (s : Int) : Int := Int.fdiv (s + 1) 2

/-- A JS value that is either a string or a number, as stored in the UV
dataset field `elementValue.value`. -/
inductive JsVal where
  | str (s : String)
  | num (n : Int)
  deriving Repr, DecidableEq

/-- JS truthiness: `""` and `0` are falsy, every other string/number truthy. -/
def JsVal.truthy : JsVal → Bool
  | .str s => s ≠ ""
  | .num n => n ≠ 0

end JsPrim

namespace General

open JsPrim

/-! ### Model of `server.js` (36-hour forecast, dataset F-C0032-001) -/

/-- The `TAIWAN_LOCATIONS` list from `server.js` (also identical in the combined
variant): the 22 supported administrative regions. -/
def TAIWAN_LOCATIONS : List String :=
  ["宜蘭縣", "花蓮縣", "臺東縣", "澎湖縣", "金門縣", "連江縣",
   "臺北市", "新北市", "桃園市", "臺中市", "臺南市", "高雄市",
   "基隆市", "新竹縣", "新竹市", "苗栗縣", "彰化縣", "南投縣",
   "雲林縣", "嘉義縣", "嘉義市", "屏東縣"]

/-- Static map `CWA_NAME_MAP` fixing the 新竹市/嘉義市 naming mismatch. -/
def CWA_NAME_MAP : List (String × String) :=
  [("新竹市", "新竹縣"), ("嘉義市", "嘉義縣")]

/-- Model of `CWA_NAME_MAP[requestedLocationName] || requestedLocationName`
(the map values are non-empty strings, so `||` is exactly lookup-with-default). -/
def resolveApiName (n : String) : String := (CWA_NAME_MAP.lookup n).getD n

/-- One `parameter` object of a time entry of a weather element. -/
structure Parameter where
  parameterName : String
  deriving Repr, DecidableEq

/-- One entry of the `time` array of a weather element. -/
structure TimeEntry where
  startTime : String
  endTime : String
  parameter : Parameter
  deriving Repr, DecidableEq

/-- One entry of the `weatherElement` array of a location: a named time series. -/
structure WeatherElement where
  elementName : String
  time : List TimeEntry
  deriving Repr, DecidableEq

/-- One entry of `records.location`. -/
structure LocationData where
  locationName : String
  weatherElement : List WeatherElement
  deriving Repr, DecidableEq

/-- The `records` object of the F-C0032-001 payload. -/
structure Records where
  datasetDescription : String
  location : List LocationData
  deriving Repr, DecidableEq

/-- The parsed upstream JSON body. -/
structure CwaPayload where
  records : Records
  deriving Repr, DecidableEq

/-- One reshaped forecast slot.  In JS the `comfort` property is only created
when a `CI` element is seen, hence `Option`; the other fields start as `""`. -/
structure Forecast where
  startTime : String
  endTime : String
  weather : String
  rain : String
  minTemp : String
  maxTemp : String
  comfort : Option String
  deriving Repr, DecidableEq

/-- Body of the `switch (element.elementName)`: fold the value of one element at the
current slot index into the forecast record; unknown names fall through. -/
def applyElement (f : Forecast) (name : String) (p : Parameter) : Forecast :=
  if name = "Wx" then { f with weather := p.parameterName }
  else if name = "PoP" then { f with rain := p.parameterName ++ "%" }
  else if name = "MinT" then { f with minTemp := p.parameterName ++ "°C" }
  else if name = "MaxT" then { f with maxTemp := p.parameterName ++ "°C" }
  else if name = "CI" then { f with comfort := some p.parameterName }
  else f

/-- The `weatherElements.forEach` at slot index `i`: `element.time[i].parameter`
throws (→ `none`) when element `time` arrays are shorter than the canonical
slot count. -/
def applyElements (els : List WeatherElement) (i : Nat) (f : Forecast) :
    Option Forecast :=
  match els with
  | [] => some f
  | e :: rest =>
    match e.time.get? i with
    | none => none
    | some te => applyElements rest i (applyElement f e.elementName te.parameter)

/-- Fresh forecast record for one slot, its interval taken from the first
time entry of the first element. -/
def initForecast (te : TimeEntry) : Forecast :=
  { startTime := te.startTime, endTime := te.endTime,
    weather := "", rain := "", minTemp := "", maxTemp := "", comfort := none }

/-- Build the forecast for slot `i`: interval from `weatherElements[0].time[i]`,
fields folded in from every element. -/
def buildForecast (els : List WeatherElement) (i : Nat) : Option Forecast :=
  match els.get? 0 with
  | none => none
  | some e0 =>
    match e0.time.get? i with
    | none => none
    | some te0 => applyElements els i (initForecast te0)

/-- Sequential `Option`-valued map: the JS loop pushes slots in order and a
throw at any index aborts the whole handler. -/
def optSeq {α β : Type} (g : α → Option β) : List α → Option (List β)
  | [] => some []
  | a :: as =>
    match g a with
    | none => none
    | some b =>
      match optSeq g as with
      | none => none
      | some bs => some (b :: bs)

/-- The normalization loop of `getGeneralWeather`: slot count is
`weatherElements[0].time.length` (throws when `weatherElement` is empty). -/
def parseForecasts (els : List WeatherElement) : Option (List Forecast) :=
  match els.get? 0 with
  | none => none
  | some e0 => optSeq (buildForecast els) (List.range e0.time.length)

/-- Model of `(parseInt(minTemp) + parseInt(maxTemp)) / 2`, `Math.round` and the template
string: any `NaN` operand propagates to the string `"NaN°C"`. -/
def avgTempString (minS maxS : String) : String :=
  match jsParseInt minS, jsParseInt maxS with
  | some a, some b => toString (jsRoundHalfOfSum (a + b)) ++ "°C"
  | _, _ => "NaN°C"

/-- Derived current-condition summary. -/
structure CurrentWeather where
  temperature : String
  weatherDescription : String
  deriving Repr, DecidableEq

/-- The `data` object of a successful response. -/
structure WeatherData where
  city : String
  updateTime : String
  currentWeather : CurrentWeather
  forecasts : List Forecast
  deriving Repr, DecidableEq

/-- HTTP responses: `ok status data` models `res.status(status)` with body
`{success: true, data}`; `err status error message` models an error body
`{error, message}`. -/
inductive Response where
  | ok (status : Nat) (data : WeatherData)
  | err (status : Nat) (error : String) (message : String)
  deriving Repr, DecidableEq

/-- HTTP status code of a response. -/
def Response.status : Response → Nat
  | .ok s _ => s
  | .err s _ _ => s

/-- Result of running the handler: the response plus the list of location
names for which an outbound CWA fetch was issued. -/
structure GWResult where
  resp : Response
  fetched : List String
  deriving Repr, DecidableEq

/-- Value of `currentWeather` after the loop: set from slot 0 when it exists, else the
initial placeholder. -/
def currentOf (fcs : List Forecast) : CurrentWeather :=
  match fcs.get? 0 with
  | some f0 =>
    { temperature := avgTempString f0.minTemp f0.maxTemp,
      weatherDescription := f0.weather }
  | none => { temperature := "N/A°C", weatherDescription := "N/A" }

/-- Model of `getGeneralWeather` of `server.js`, over a given upstream payload (the
fetch itself is assumed to succeed at the transport level; `fetched` records
the outbound call).  `fetchCwaData` throws before any network call when the
credential is falsy, which the catch block turns into HTTP 500. -/
def getGeneralWeather (key query : Option String) (payload : CwaPayload) :
    GWResult :=
  match query with
  | none => ⟨.err 400 "缺少參數" "請提供 locationName", []⟩
  | some q =>
    if q = "" then ⟨.err 400 "缺少參數" "請提供 locationName", []⟩
    else
      let apiName := resolveApiName q
      if strFalsy key then
        ⟨.err 500 "伺服器錯誤" "請在 .env 檔案中設定 CWA_API_KEY", []⟩
      else
        match payload.records.location.find? (fun l => l.locationName = apiName) with
        | none =>
          ⟨.err 404 "查無資料" ("無法取得 " ++ apiName ++ " 的天氣資料"), [apiName]⟩
        | some locationData =>
          match parseForecasts locationData.weatherElement with
          | none => ⟨.err 500 "伺服器錯誤" "TypeError", [apiName]⟩
          | some fcs =>
            ⟨.ok 200
              { city := q,
                updateTime := payload.records.datasetDescription,
                currentWeather := currentOf fcs,
                forecasts := fcs },
              [apiName]⟩

end General

namespace Combined

open JsPrim

/-!
### Model of the combined variant (`getCombinedWeather`)

Dataset F-D0047-091 (two-week forecast, elements `T` and `Wx`) joined with
dataset F-A0085-005 (UV index).  The code reads the `elementValue`
of a `T` time entry as an object (`elementValue.value`) and the `elementValue`
of a `Wx` entry as an array (`elementValue[0].value`); `JsEV` models both
shapes.  `JsEV.items` lists the `value` fields of the array entries.
-/

/-- The `elementValue` of a two-week time entry: either an object with a
`value` field or an array of `{value}` objects (we keep just the `value`s). -/
inductive JsEV where
  | obj (value : String)
  | arr (items : List String)
  deriving Repr, DecidableEq

/-- JS `elementValue.value`: `none` models `undefined` (property absent on an
array), which string concatenation renders as `"undefined"`. -/
def JsEV.dotValue : JsEV → Option String
  | .obj v => some v
  | .arr _ => none

/-- JS `elementValue[0].value`: `none` models a thrown `TypeError`
(`elementValue[0]` is `undefined` on an object or an empty array). -/
def JsEV.idx0value : JsEV → Option String
  | .obj _ => none
  | .arr [] => none
  | .arr (v :: _) => some v

/-- One entry of the `time` array of a two-week element. -/
structure WTime where
  startTime : String
  endTime : String
  elementValue : JsEV
  deriving Repr, DecidableEq

/-- One entry of the `weatherElement` array of a two-week location. -/
structure WElement where
  elementName : String
  time : List WTime
  deriving Repr, DecidableEq

/-- One entry of `records.locations[0].location`. -/
structure CLoc where
  locationName : String
  weatherElement : List WElement
  deriving Repr, DecidableEq

/-- One entry of `records.locations` of the F-D0047-091 payload. -/
structure LocationsGroup where
  datasetDescription : String
  location : List CLoc
  deriving Repr, DecidableEq

/-- The `records` object of the F-D0047-091 payload. -/
structure TwRecords where
  locations : List LocationsGroup
  deriving Repr, DecidableEq

/-- The parsed F-D0047-091 body. -/
structure TwPayload where
  records : TwRecords
  deriving Repr, DecidableEq

/-- One reshaped forecast slot of the combined variant. -/
structure CForecast where
  startTime : String
  endTime : String
  temperature : String
  weatherDescription : String
  deriving Repr, DecidableEq

/-- The body of the `tempElement.time.slice(0, 5).map(...)` callback:
temperature is `timeSlot.elementValue.value + "°C"`, the description is the
`[0].value` of the `Wx` entry found by equal `startTime`, or the placeholder
N/A when the `Wx` element is absent or no entry matches; dereferencing the
`elementValue[0]` of a matched entry can throw (`none`). -/
def mkForecastSlot (wxEl : Option WElement) (ts : WTime) : Option CForecast :=
  let weatherAtTime : Option WTime :=
    match wxEl with
    | some wx => wx.time.find? (fun t => t.startTime = ts.startTime)
    | none => none
  match weatherAtTime with
  | some w =>
    match w.elementValue.idx0value with
    | none => none
    | some d =>
      some { startTime := ts.startTime, endTime := ts.endTime,
             temperature := ts.elementValue.dotValue.getD "undefined" ++ "°C",
             weatherDescription := d }
  | none =>
    some { startTime := ts.startTime, endTime := ts.endTime,
           temperature := ts.elementValue.dotValue.getD "undefined" ++ "°C",
           weatherDescription := "N/A" }

/-- Steps 3 of `getCombinedWeather`: forecasts stay `[]` unless the location
was found with a non-empty `weatherElement` containing a `T` element; only the
first 5 time slots of the `T` series are mapped. -/
def buildForecasts (targetLocation : Option CLoc) : Option (List CForecast) :=
  match targetLocation with
  | none => some []
  | some loc =>
    if loc.weatherElement.length > 0 then
      match loc.weatherElement.find? (fun e => e.elementName = "T") with
      | none => some []
      | some tempEl =>
        General.optSeq
          (mkForecastSlot (loc.weatherElement.find? (fun e => e.elementName = "Wx")))
          (tempEl.time.take 5)
    else some []

/-- One entry of the `weatherElement` of a UV location; `value` models
`elementValue.value` (a string or a number in JSON). -/
structure UvElement where
  value : JsVal
  deriving Repr, DecidableEq

/-- One entry of `records.locations[0].location` of the UV payload. -/
structure UvLocation where
  locationName : String
  weatherElement : List UvElement
  deriving Repr, DecidableEq

/-- One entry of `records.locations` of the UV payload. -/
structure UvGroup where
  location : List UvLocation
  deriving Repr, DecidableEq

/-- The `records` object of the F-A0085-005 payload. -/
structure UvRecords where
  datasetDescription : String
  locations : List UvGroup
  deriving Repr, DecidableEq

/-- The parsed F-A0085-005 body. -/
structure UvPayload where
  records : UvRecords
  deriving Repr, DecidableEq

/-- Step 4 of `getCombinedWeather`: `currentUV` stays N/A unless the
locations array is non-empty, the location is found, its first weather
element exists and the `elementValue.value` of that element is truthy. -/
def currentUV (uv : UvPayload) (locationName : String) : JsVal :=
  match uv.records.locations with
  | [] => .str "N/A"
  | g :: _ =>
    match g.location.find? (fun l => l.locationName = locationName) with
    | none => .str "N/A"
    | some uvLoc =>
      match uvLoc.weatherElement.get? 0 with
      | none => .str "N/A"
      | some el => if el.value.truthy then el.value else .str "N/A"

/-- The `data` object of a successful combined response. -/
structure CombinedData where
  city : String
  updateTime : String
  uvDescription : String
  currentUVIndex : JsVal
  forecasts : List CForecast
  deriving Repr, DecidableEq

/-- Combined responses: `ok status data` models `{success: true, data}`. -/
inductive CResponse where
  | ok (status : Nat) (data : CombinedData)
  | err (status : Nat) (error : String) (message : String)
  deriving Repr, DecidableEq

/-- HTTP status code of a combined response. -/
def CResponse.status : CResponse → Nat
  | .ok s _ => s
  | .err s _ _ => s

/-- Handler result: the response plus the number of outbound fetches issued
(the two dataset requests are issued together once validation passes). -/
structure CombResult where
  resp : CResponse
  fetchCount : Nat
  deriving Repr, DecidableEq

/-- Model of `getCombinedWeather`, over given upstream payloads (both fetches assumed
to succeed at the transport level).  Validation order follows the source:
missing parameter, then enumeration membership, then credential, each before
any outbound call; `records.locations[0]` of the two-week payload throws when
the array is empty (→ catch-all 500). -/
def getCombinedWeather (key query : Option String) (tw : TwPayload)
    (uv : UvPayload) : CombResult :=
  match query with
  | none => ⟨.err 400 "缺少參數" "請提供 locationName 查詢參數。", 0⟩
  | some q =>
    if q = "" then ⟨.err 400 "缺少參數" "請提供 locationName 查詢參數。", 0⟩
    else if ¬ (General.TAIWAN_LOCATIONS.contains q) then
      ⟨.err 400 "地點無效" ("地點 " ++ q ++ " 不在支援列表中。"), 0⟩
    else if strFalsy key then
      ⟨.err 500 "伺服器設定錯誤" "請在 .env 檔案中設定 CWA_API_KEY", 0⟩
    else
      match tw.records.locations.get? 0 with
      | none => ⟨.err 500 "伺服器錯誤" "TypeError", 2⟩
      | some g0 =>
        match buildForecasts (g0.location.find? (fun l => l.locationName = q)) with
        | none => ⟨.err 500 "伺服器錯誤" "TypeError", 2⟩
        | some fcs =>
          ⟨.ok 200
            { city := q,
              updateTime := g0.datasetDescription,
              uvDescription := uv.records.datasetDescription,
              currentUVIndex := currentUV uv q,
              forecasts := fcs },
            2⟩

end Combined

namespace WeekHandler

open JsPrim

/-!
### Model of the serverless week handler (`handler`)

It issues the F-D0047-091 fetch and then the F-A0085-005 fetch with
`Authorization: apiKey` without ever checking that the key is set; each fetch
outcome is a parameter (`Except` for an axios rejection).  Missing records are
probed with optional chaining, so they answer with a default-status (200)
`{success: false, ...}` body instead of throwing.
-/

/-- One entry of a `weatherElement` array; the `time` payload is passed
through untouched, so its entries are kept opaque as strings. -/
structure HElement where
  elementName : String
  description : String
  time : List String
  deriving Repr, DecidableEq

/-- One location record (`location[0]` of either dataset). -/
structure HLoc where
  weatherElement : List HElement
  deriving Repr, DecidableEq

/-- One entry of `records.locations` of the week payload. -/
structure HGroup where
  location : List HLoc
  deriving Repr, DecidableEq

/-- The `records` object of the week payload. -/
structure WkRecords where
  locations : List HGroup
  deriving Repr, DecidableEq

/-- The parsed F-D0047-091 body. -/
structure WkPayload where
  records : WkRecords
  deriving Repr, DecidableEq

/-- The `records` object of the day (F-A0085-005) payload. -/
structure DayRecords where
  location : List HLoc
  deriving Repr, DecidableEq

/-- The parsed F-A0085-005 body. -/
structure DayPayload where
  records : DayRecords
  deriving Repr, DecidableEq

/-- A reshaped element in the `weekly`/`hourly` output arrays. -/
structure HOut where
  elementName : String
  description : String
  time : List String
  deriving Repr, DecidableEq

/-- The possible response bodies of the handler. -/
inductive HResponse where
  | missingCity
  | notFoundWeek (msg : String)
  | notFoundDay (msg : String)
  | ok (city : String) (weekly hourly : List HOut)
  | serverError (msg : String)
  deriving Repr, DecidableEq

/-- HTTP status of each response: the two not-found bodies go through plain
`res.json`, whose default status is 200. -/
def HResponse.status : HResponse → Nat
  | .missingCity => 400
  | .notFoundWeek _ => 200
  | .notFoundDay _ => 200
  | .ok _ _ _ => 200
  | .serverError _ => 500

/-- Handler result with the number of outbound fetches attempted. -/
structure HResult where
  resp : HResponse
  fetchCount : Nat
  deriving Repr, DecidableEq

/-- Reshape a `weatherElement` array for the output. -/
def reshape (els : List HElement) : List HOut :=
  els.map (fun el => ⟨el.elementName, el.description, el.time⟩)

/-- Model of `handler`: it checks only that `city` is truthy, then issues the week fetch
and the day fetch in sequence regardless of whether `apiKey` is set; a
rejected fetch is caught as HTTP 500. -/
def handler (apiKey city : Option String)
    (weekOutcome : Except String WkPayload)
    (dayOutcome : Except String DayPayload) : HResult :=
  match city with
  | none => ⟨.missingCity, 0⟩
  | some c =>
    if c = "" then ⟨.missingCity, 0⟩
    else
      -- `apiKey` is only forwarded as a query parameter; never validated.
      let _ := apiKey
      match weekOutcome with
      | .error msg => ⟨.serverError msg, 1⟩
      | .ok wk =>
        match (wk.records.locations.get? 0).bind (fun g => g.location.get? 0) with
        | none => ⟨.notFoundWeek ("F-D0047-091 找不到縣市：" ++ c), 1⟩
        | some weekRecords =>
          match dayOutcome with
          | .error msg => ⟨.serverError msg, 2⟩
          | .ok dy =>
            match dy.records.location.get? 0 with
            | none => ⟨.notFoundDay ("F-A0085-005 找不到縣市：" ++ c), 2⟩
            | some dayRecords =>
              ⟨.ok c (reshape weekRecords.weatherElement)
                     (reshape dayRecords.weatherElement), 2⟩

end WeekHandler

namespace Fixtures

open JsPrim General Combined WeekHandler

/-! ### Concrete payloads used as witnesses and counterexample inputs -/

/-- A general-variant payload with an empty location array. -/
def emptyPay : CwaPayload := ⟨⟨"desc", []⟩⟩

/-- Aligned elements: `Wx`/`MinT`/`MaxT` plus an unrecognized `UVI` element,
one time slot each. -/
def wxEl : WeatherElement := ⟨"Wx", [⟨"s1", "e1", ⟨"晴"⟩⟩]⟩

/-- A `MinT` element with one slot valued 20. -/
def minEl : WeatherElement := ⟨"MinT", [⟨"s1", "e1", ⟨"20"⟩⟩]⟩

/-- A `MaxT` element with one slot valued 24. -/
def maxEl : WeatherElement := ⟨"MaxT", [⟨"s1", "e1", ⟨"24"⟩⟩]⟩

/-- An element whose name matches no case of the switch in the normalizer. -/
def uviEl : WeatherElement := ⟨"UVI", [⟨"s1", "e1", ⟨"9"⟩⟩]⟩

/-- The 新竹縣 location record with the four elements above. -/
def hcLoc : LocationData := ⟨"新竹縣", [wxEl, minEl, maxEl, uviEl]⟩

/-- Payload containing only the 新竹縣 record. -/
def hcPay : CwaPayload := ⟨⟨"d", [hcLoc]⟩⟩

/-- A 臺北市 location record with only a `Wx` element, so `minTemp`/`maxTemp`
stay `""` in the built slot. -/
def noTempLoc : LocationData := ⟨"臺北市", [wxEl]⟩

/-- Payload containing only `noTempLoc`. -/
def noTempPay : CwaPayload := ⟨⟨"d", [noTempLoc]⟩⟩

/-- Two-week payload whose location array holds only a 高雄市 record: no
record matches a request for 臺北市. -/
def twNoLoc : TwPayload := ⟨⟨[⟨"twd", [⟨"高雄市", []⟩]⟩]⟩⟩

/-- UV payload with an empty locations array. -/
def uvEmpty : UvPayload := ⟨⟨"uvd", []⟩⟩

/-- A `T` element with six slots (more than the truncation limit of 5). -/
def tEl : WElement :=
  ⟨"T", [⟨"s1", "e1", .obj "25"⟩, ⟨"s2", "e2", .obj "26"⟩, ⟨"s3", "e3", .obj "27"⟩,
         ⟨"s4", "e4", .obj "28"⟩, ⟨"s5", "e5", .obj "29"⟩, ⟨"s6", "e6", .obj "30"⟩]⟩

/-- A `Wx` element covering only the `s1` and `s3` start times. -/
def wEl : WElement := ⟨"Wx", [⟨"s1", "e1", .arr ["多雲"]⟩, ⟨"s3", "e3", .arr ["晴"]⟩]⟩

/-- The 臺北市 two-week location record with `T` and `Wx`. -/
def tpLoc : CLoc := ⟨"臺北市", [tEl, wEl]⟩

/-- Two-week payload locating 臺北市. -/
def twFull : TwPayload := ⟨⟨[⟨"twd", [tpLoc]⟩]⟩⟩

/-- UV payload whose 臺北市 record carries the falsy numeric UV index `0`. -/
def uvZero : UvPayload := ⟨⟨"uvd", [⟨[⟨"臺北市", [⟨.num 0⟩]⟩]⟩]⟩⟩

/-- Day payload for the week handler with an empty location array. -/
def dayEmpty : DayPayload := ⟨⟨[]⟩⟩

/-- The slot the normalizer builds from `hcLoc` at index 0. -/
def hcForecast : Forecast := ⟨"s1", "e1", "晴", "", "20°C", "24°C", none⟩

/-- The `data` object `getGeneralWeather` produces for 新竹市 over `hcPay`. -/
def hcData : WeatherData := ⟨"新竹市", "d", ⟨"22°C", "晴"⟩, [hcForecast]⟩

end Fixtures

namespace General

open JsPrim

/-! ### Helper lemmas for the general (36-hour) normalizer -/

/-- The names recognized by the switch in the normalizer. -/
def isWeatherCode (n : String) : Bool :=
  n = "Wx" || n = "PoP" || n = "MinT" || n = "MaxT" || n = "CI"

theorem applyElement_unrecognized (f : Forecast) (name : String) (p : Parameter)
    (h : isWeatherCode name = false) : applyElement f name p = f := by
  simp only [isWeatherCode, Bool.or_eq_false_iff, decide_eq_false_iff_not] at h
  obtain ⟨⟨⟨⟨h1, h2⟩, h3⟩, h4⟩, h5⟩ := h
  simp [applyElement, h1, h2, h3, h4, h5]

theorem optSeq_isSome {α β : Type} (g : α → Option β) (xs : List α)
    (h : ∀ a ∈ xs, (g a).isSome) :
    ∃ ys, optSeq g xs = some ys ∧ ys.length = xs.length := by
  induction xs with
  | nil => exact ⟨[], rfl, rfl⟩
  | cons a as ih =>
    obtain ⟨b, hb⟩ := Option.isSome_iff_exists.mp (h a (List.mem_cons_self a as))
    obtain ⟨bs, hbs, hlen⟩ := ih (fun x hx => h x (List.mem_cons_of_mem a hx))
    exact ⟨b :: bs, by simp [optSeq, hb, hbs], by simp [hlen]⟩

theorem optSeq_get? {α β : Type} (g : α → Option β) (xs : List α) (ys : List β)
    (h : optSeq g xs = some ys) (i : Nat) : ys.get? i = (xs.get? i).bind g := by
  induction xs generalizing ys i with
  | nil =>
    simp only [optSeq] at h
    cases h
    simp
  | cons a as ih =>
    simp only [optSeq] at h
    cases hg : g a with
    | none => rw [hg] at h; exact absurd h (by simp)
    | some b =>
      rw [hg] at h
      cases hs : optSeq g as with
      | none => rw [hs] at h; exact absurd h (by simp)
      | some bs =>
        rw [hs] at h
        cases h
        cases i with
        | zero => simp [hg]
        | succ j => simpa using ih bs hs j

theorem applyElements_isSome (i : Nat) (els : List WeatherElement)
    (h : ∀ e ∈ els, i < e.time.length) (f : Forecast) :
    (applyElements els i f).isSome := by
  induction els generalizing f with
  | nil => simp [applyElements]
  | cons e rest ih =>
    have hi : i < e.time.length := h e (List.mem_cons_self e rest)
    rw [applyElements, List.get?_eq_get hi]
    exact ih (fun x hx => h x (List.mem_cons_of_mem e hx)) _

theorem applyElements_filter (i : Nat) (els : List WeatherElement)
    (h : ∀ e ∈ els, i < e.time.length) (f : Forecast) :
    applyElements els i f =
      applyElements (els.filter (fun e => isWeatherCode e.elementName)) i f := by
  induction els generalizing f with
  | nil => rfl
  | cons e rest ih =>
    have hi : i < e.time.length := h e (List.mem_cons_self e rest)
    have hrest : ∀ x ∈ rest, i < x.time.length :=
      fun x hx => h x (List.mem_cons_of_mem e hx)
    cases hc : isWeatherCode e.elementName with
    | true =>
      have hf : (e :: rest).filter (fun x => isWeatherCode x.elementName) =
          e :: rest.filter (fun x => isWeatherCode x.elementName) := by
        simp [List.filter_cons, hc]
      rw [hf, applyElements, applyElements, List.get?_eq_get hi]
      exact ih hrest _
    | false =>
      have hf : (e :: rest).filter (fun x => isWeatherCode x.elementName) =
          rest.filter (fun x => isWeatherCode x.elementName) := by
        simp [List.filter_cons, hc]
      rw [hf, applyElements, List.get?_eq_get hi]
      dsimp only
      rw [applyElement_unrecognized _ _ _ hc]
      exact ih hrest f

theorem buildForecast_isSome (els : List WeatherElement) (M i : Nat)
    (hne : els ≠ []) (hlen : ∀ e ∈ els, e.time.length = M) (hi : i < M) :
    (buildForecast els i).isSome := by
  cases els with
  | nil => exact absurd rfl hne
  | cons e0 rest =>
    have h0 : i < e0.time.length := by
      rw [hlen e0 (List.mem_cons_self e0 rest)]; exact hi
    rw [buildForecast]
    simp only [List.get?]
    rw [List.get?_eq_get h0]
    exact applyElements_isSome i _ (fun e he => by rw [hlen e he]; exact hi) _

theorem parseForecasts_aligned (els : List WeatherElement) (M : Nat)
    (hne : els ≠ []) (hlen : ∀ e ∈ els, e.time.length = M) :
    ∃ fcs, parseForecasts els = some fcs ∧ fcs.length = M := by
  cases hels : els with
  | nil => exact absurd hels hne
  | cons e0 rest =>
    subst hels
    have hM : e0.time.length = M := hlen e0 (List.mem_cons_self e0 rest)
    have hsome : ∀ i ∈ List.range e0.time.length,
        (buildForecast (e0 :: rest) i).isSome := by
      intro i hi
      rw [List.mem_range, hM] at hi
      exact buildForecast_isSome _ M i (by simp) hlen hi
    obtain ⟨fcs, hfcs, hl⟩ := optSeq_isSome _ _ hsome
    refine ⟨fcs, ?_, ?_⟩
    · rw [parseForecasts]; simpa using hfcs
    · rw [hl, List.length_range, hM]

theorem generalWeather_ok_shape (key : Option String) (q : String)
    (payload : CwaPayload) (d : WeatherData)
    (h : (getGeneralWeather key (some q) payload).resp = .ok 200 d) :
    d.city = q ∧ d.updateTime = payload.records.datasetDescription ∧
      d.currentWeather = currentOf d.forecasts := by
  unfold getGeneralWeather at h
  dsimp only at h
  by_cases hq : q = ""
  · rw [if_pos hq] at h; simp at h
  · rw [if_neg hq] at h
    cases hk : strFalsy key with
    | true => rw [hk] at h; simp at h
    | false =>
      rw [hk] at h
      simp only [Bool.false_eq_true, if_false] at h
      cases hfind : payload.records.location.find?
          (fun l => l.locationName = resolveApiName q) with
      | none => rw [hfind] at h; simp at h
      | some locationData =>
        rw [hfind] at h
        dsimp only at h
        cases hp : parseForecasts locationData.weatherElement with
        | none => rw [hp] at h; simp at h
        | some fcs =>
          rw [hp] at h
          simp only [Response.ok.injEq, true_and] at h
          rw [← h]
          exact ⟨rfl, rfl, rfl⟩

theorem generalWeather_ok_of_located (key : Option String) (q : String)
    (payload : CwaPayload) (loc : LocationData) (M : Nat)
    (hq : q ≠ "") (hk : strFalsy key = false)
    (hfind : payload.records.location.find?
      (fun l => l.locationName = resolveApiName q) = some loc)
    (hne : loc.weatherElement ≠ [])
    (hlen : ∀ e ∈ loc.weatherElement, e.time.length = M) :
    ∃ d, (getGeneralWeather key (some q) payload).resp = .ok 200 d ∧
      d.city = q ∧ d.forecasts.length = M ∧
      d.currentWeather = currentOf d.forecasts := by
  obtain ⟨fcs, hp, hl⟩ := parseForecasts_aligned _ M hne hlen
  refine ⟨⟨q, payload.records.datasetDescription, currentOf fcs, fcs⟩,
    ?_, rfl, hl, rfl⟩
  unfold getGeneralWeather
  dsimp only
  rw [if_neg hq, hk]
  simp only [Bool.false_eq_true, if_false]
  rw [hfind]
  dsimp only
  rw [hp]

end General

namespace Combined

open JsPrim

/-! ### Helper lemmas for the combined normalizer -/

theorem mkForecastSlot_spec (wxEl : Option WElement) (ts : WTime)
    (hwf : ∀ wx, wxEl = some wx → ∀ t ∈ wx.time, (t.elementValue.idx0value).isSome) :
    ∃ slot, mkForecastSlot wxEl ts = some slot ∧
      slot.startTime = ts.startTime ∧ slot.endTime = ts.endTime ∧
      slot.temperature = ts.elementValue.dotValue.getD "undefined" ++ "°C" ∧
      ((wxEl = none ∨ ∃ wx, wxEl = some wx ∧
          wx.time.find? (fun t => t.startTime = ts.startTime) = none) →
        slot.weatherDescription = "N/A") ∧
      (∀ wx w, wxEl = some wx →
        wx.time.find? (fun t => t.startTime = ts.startTime) = some w →
        w.elementValue.idx0value = some slot.weatherDescription) := by
  cases wxEl with
  | none =>
    refine ⟨⟨ts.startTime, ts.endTime,
      ts.elementValue.dotValue.getD "undefined" ++ "°C", "N/A"⟩,
      rfl, rfl, rfl, rfl, fun _ => rfl, ?_⟩
    intro wx w hwx
    exact absurd hwx (by simp)
  | some wx =>
    cases hfind : wx.time.find? (fun t => t.startTime = ts.startTime) with
    | none =>
      refine ⟨⟨ts.startTime, ts.endTime,
        ts.elementValue.dotValue.getD "undefined" ++ "°C", "N/A"⟩,
        ?_, rfl, rfl, rfl, fun _ => rfl, ?_⟩
      · simp only [mkForecastSlot, hfind]
      · intro wx2 w hwx2 hf2
        cases hwx2
        rw [hfind] at hf2
        exact absurd hf2 (by simp)
    | some w =>
      have hw : w ∈ wx.time := List.mem_of_find?_eq_some hfind
      obtain ⟨dsc, hd⟩ := Option.isSome_iff_exists.mp (hwf wx rfl w hw)
      refine ⟨⟨ts.startTime, ts.endTime,
        ts.elementValue.dotValue.getD "undefined" ++ "°C", dsc⟩,
        ?_, rfl, rfl, rfl, ?_, ?_⟩
      · simp only [mkForecastSlot, hfind, hd]
      · rintro (hn | ⟨wx2, hwx2, hf2⟩)
        · exact absurd hn (by simp)
        · cases hwx2
          rw [hfind] at hf2
          exact absurd hf2 (by simp)
      · intro wx2 w2 hwx2 hf2
        cases hwx2
        rw [hfind] at hf2
        cases hf2
        exact hd

theorem buildForecasts_spec (loc : CLoc) (tempEl : WElement)
    (hT : loc.weatherElement.find? (fun e => e.elementName = "T") = some tempEl)
    (hwf : ∀ wx, loc.weatherElement.find? (fun e => e.elementName = "Wx") = some wx →
      ∀ t ∈ wx.time, (t.elementValue.idx0value).isSome) :
    ∃ fcs, buildForecasts (some loc) = some fcs ∧
      fcs.length = min 5 tempEl.time.length ∧
      ∀ i, ∀ h : i < fcs.length, ∃ ts, tempEl.time.get? i = some ts ∧
        mkForecastSlot (loc.weatherElement.find? (fun e => e.elementName = "Wx")) ts =
          some (fcs.get ⟨i, h⟩) := by
  have hne : 0 < loc.weatherElement.length := by
    cases hel : loc.weatherElement with
    | nil => rw [hel] at hT; exact absurd hT (by simp)
    | cons a l => simp
  have hsome : ∀ ts ∈ tempEl.time.take 5,
      (mkForecastSlot (loc.weatherElement.find? (fun e => e.elementName = "Wx")) ts).isSome := by
    intro ts _
    obtain ⟨slot, hs, -⟩ := mkForecastSlot_spec _ ts (fun wx hwx => hwf wx hwx)
    rw [hs]; rfl
  obtain ⟨fcs, hfcs, hlen⟩ := General.optSeq_isSome _ _ hsome
  have hbuild : buildForecasts (some loc) = some fcs := by
    unfold buildForecasts
    dsimp only
    rw [if_pos hne, hT]
    exact hfcs
  refine ⟨fcs, hbuild, ?_, ?_⟩
  · rw [hlen, List.length_take]
  · intro i h
    have hi5 : i < 5 := by
      have := h
      rw [hlen, List.length_take] at this
      exact lt_of_lt_of_le this (min_le_left 5 _)
    have hgets := General.optSeq_get? _ _ _ hfcs i
    rw [List.get?_eq_get h] at hgets
    have htake : (tempEl.time.take 5).get? i = tempEl.time.get? i :=
      List.get?_take hi5
    rw [htake] at hgets
    cases hts : tempEl.time.get? i with
    | none => rw [hts] at hgets; exact absurd hgets (by simp)
    | some ts =>
      rw [hts] at hgets
      exact ⟨ts, rfl, hgets.symm⟩

theorem combined_ok_of_located (key : Option String) (q : String)
    (tw : TwPayload) (uv : UvPayload) (g0 : LocationsGroup) (fcs : List CForecast)
    (hq : q ≠ "") (hmem : General.TAIWAN_LOCATIONS.contains q = true)
    (hk : strFalsy key = false)
    (hg : tw.records.locations.get? 0 = some g0)
    (hb : buildForecasts (g0.location.find? (fun l => l.locationName = q)) = some fcs) :
    (getCombinedWeather key (some q) tw uv).resp =
      .ok 200 ⟨q, g0.datasetDescription, uv.records.datasetDescription,
        currentUV uv q, fcs⟩ ∧
    (getCombinedWeather key (some q) tw uv).fetchCount = 2 := by
  unfold getCombinedWeather
  dsimp only
  rw [if_neg hq, hmem, hk]
  simp only [not_true, Bool.false_eq_true, if_false]
  rw [hg]
  dsimp only
  rw [hb]
  exact ⟨rfl, rfl⟩

end Combined

namespace Claims

open JsPrim

/-- Claim C1, as stated, is false: in the combined variant a payload whose
location array has no record named 臺北市 still yields an HTTP 200 success
response with empty forecasts, not a 404 error. -/
theorem c1_counterexample :
    Fixtures.twNoLoc.records.locations.map
      (fun g => g.location.find? (fun l => l.locationName = "臺北市")) = [none] ∧
    (Combined.getCombinedWeather (some "k") (some "臺北市") Fixtures.twNoLoc
      Fixtures.uvEmpty).resp =
      .ok 200 ⟨"臺北市", "twd", "uvd", .str "N/A", []⟩ :=
  ⟨by decide, by decide⟩

/-- Claim C1 (amended): in the 36-hour variant, whenever the upstream location
array has no record whose name equals the resolved key, the endpoint responds
HTTP 404 with an error body naming the resolved place (the other two variants
respond HTTP 200 instead). -/
theorem c1_general_404 (key : Option String) (q : String)
    (payload : General.CwaPayload)
    (hq : q ≠ "") (hk : strFalsy key = false)
    (hfind : payload.records.location.find?
      (fun l => l.locationName = General.resolveApiName q) = none) :
    (General.getGeneralWeather key (some q) payload).resp =
      .err 404 "查無資料" ("無法取得 " ++ General.resolveApiName q ++ " 的天氣資料") ∧
    (General.getGeneralWeather key (some q) payload).fetched =
      [General.resolveApiName q] := by
  unfold General.getGeneralWeather
  dsimp only
  rw [if_neg hq, hk]
  simp only [Bool.false_eq_true, if_false]
  rw [hfind]
  exact ⟨rfl, rfl⟩

/-- Witness for the amended C1 theorem at a concrete empty payload. -/
theorem c1_witness :
    (General.getGeneralWeather (some "k") (some "臺北市") Fixtures.emptyPay).resp =
      .err 404 "查無資料"
        ("無法取得 " ++ General.resolveApiName "臺北市" ++ " 的天氣資料") ∧
    (General.getGeneralWeather (some "k") (some "臺北市") Fixtures.emptyPay).fetched =
      [General.resolveApiName "臺北市"] :=
  c1_general_404 (some "k") "臺北市" Fixtures.emptyPay (by decide) (by decide)
    (by decide)

/-- Claim C2, as stated, is false: the 36-hour variant never validates the
place against the enumeration, so for the unsupported non-empty place 東京都 it
invokes the upstream fetch and answers 404 (from the empty payload), not 400
without a fetch. -/
theorem c2_counterexample :
    General.TAIWAN_LOCATIONS.contains "東京都" = false ∧
    (General.getGeneralWeather (some "k") (some "東京都")
      Fixtures.emptyPay).fetched = ["東京都"] ∧
    (General.getGeneralWeather (some "k") (some "東京都")
      Fixtures.emptyPay).resp.status = 404 :=
  ⟨by decide, by decide, by decide⟩

/-- Claim C2 (amended): in the combined variant, a non-empty place outside the
supported enumeration yields HTTP 400 with a message naming the place, and no
outbound fetch is issued; the 36-hour variant performs no such validation. -/
theorem c2_combined_validates (key : Option String) (q : String)
    (tw : Combined.TwPayload) (uv : Combined.UvPayload)
    (hq : q ≠ "") (hmem : General.TAIWAN_LOCATIONS.contains q = false) :
    Combined.getCombinedWeather key (some q) tw uv =
      ⟨.err 400 "地點無效" ("地點 " ++ q ++ " 不在支援列表中。"), 0⟩ := by
  unfold Combined.getCombinedWeather
  dsimp only
  rw [if_neg hq,
    if_pos (show ¬(General.TAIWAN_LOCATIONS.contains q = true) by
      rw [hmem]; decide)]

/-- Witness for the amended C2 theorem at the unsupported place 東京都. -/
theorem c2_witness :
    Combined.getCombinedWeather (some "k") (some "東京都") Fixtures.twNoLoc
      Fixtures.uvEmpty =
      ⟨.err 400 "地點無效" ("地點 " ++ "東京都" ++ " 不在支援列表中。"), 0⟩ :=
  c2_combined_validates (some "k") "東京都" Fixtures.twNoLoc Fixtures.uvEmpty
    (by decide) (by decide)

/-- Claim C3, as stated, is false: the week handler never checks the
credential, so with the key unset it still attempts the outbound week fetch
(one fetch is issued, where the claim requires zero). -/
theorem c3_counterexample :
    (WeekHandler.handler none (some "臺北市")
      (.error "Request failed with status code 401")
      (.ok Fixtures.dayEmpty)).fetchCount = 1 ∧
    (WeekHandler.handler none (some "臺北市")
      (.error "Request failed with status code 401")
      (.ok Fixtures.dayEmpty)).fetchCount ≠ 0 :=
  ⟨by decide, by decide⟩

/-- Claim C3 (amended): in the 36-hour and combined variants, a weather
request with a falsy credential fails with HTTP 500 before any outbound call;
the week handler fetches regardless. -/
theorem c3_keyless_500 (key : Option String) (q : String)
    (payload : General.CwaPayload) (tw : Combined.TwPayload)
    (uv : Combined.UvPayload)
    (hk : strFalsy key = true) (hq : q ≠ "")
    (hmem : General.TAIWAN_LOCATIONS.contains q = true) :
    General.getGeneralWeather key (some q) payload =
      ⟨.err 500 "伺服器錯誤" "請在 .env 檔案中設定 CWA_API_KEY", []⟩ ∧
    Combined.getCombinedWeather key (some q) tw uv =
      ⟨.err 500 "伺服器設定錯誤" "請在 .env 檔案中設定 CWA_API_KEY", 0⟩ := by
  constructor
  · unfold General.getGeneralWeather
    dsimp only
    rw [if_neg hq, hk]
    simp
  · unfold Combined.getCombinedWeather
    dsimp only
    rw [if_neg hq,
      if_neg (not_not_intro hmem), hk]
    simp

/-- Witness for the amended C3 theorem with the key absent. -/
theorem c3_witness :
    General.getGeneralWeather none (some "臺北市") Fixtures.emptyPay =
      ⟨.err 500 "伺服器錯誤" "請在 .env 檔案中設定 CWA_API_KEY", []⟩ ∧
    Combined.getCombinedWeather none (some "臺北市") Fixtures.twNoLoc
      Fixtures.uvEmpty =
      ⟨.err 500 "伺服器設定錯誤" "請在 .env 檔案中設定 CWA_API_KEY", 0⟩ :=
  c3_keyless_500 none "臺北市" Fixtures.emptyPay Fixtures.twNoLoc
    Fixtures.uvEmpty (by decide) (by decide) (by decide)

/-- Claim C4: for a located record with non-empty elements whose time series
all have length M, the normalizer succeeds with exactly M forecast slots, and
folding the elements into a slot is unchanged by dropping every element whose
name is not one of Wx, PoP, MinT, MaxT, CI. -/
theorem c4_normalizer (els : List General.WeatherElement) (M : Nat)
    (hne : els ≠ []) (hlen : ∀ e ∈ els, e.time.length = M) :
    ∃ fcs, General.parseForecasts els = some fcs ∧ fcs.length = M ∧
      ∀ i, i < M → ∀ f, General.applyElements els i f =
        General.applyElements
          (els.filter (fun e => General.isWeatherCode e.elementName)) i f := by
  obtain ⟨fcs, h1, h2⟩ := General.parseForecasts_aligned els M hne hlen
  exact ⟨fcs, h1, h2, fun i hi f =>
    General.applyElements_filter i els
      (fun e he => by rw [hlen e he]; exact hi) f⟩

/-- Witness for C4 on a concrete element list containing the unrecognized
element name UVI. -/
theorem c4_witness :
    ∃ fcs, General.parseForecasts
        [Fixtures.wxEl, Fixtures.minEl, Fixtures.maxEl, Fixtures.uviEl] =
        some fcs ∧ fcs.length = 1 ∧
      ∀ i, i < 1 → ∀ f, General.applyElements
          [Fixtures.wxEl, Fixtures.minEl, Fixtures.maxEl, Fixtures.uviEl] i f =
        General.applyElements
          ([Fixtures.wxEl, Fixtures.minEl, Fixtures.maxEl, Fixtures.uviEl].filter
            (fun e => General.isWeatherCode e.elementName)) i f :=
  c4_normalizer [Fixtures.wxEl, Fixtures.minEl, Fixtures.maxEl, Fixtures.uviEl]
    1 (by decide) (by decide)

/-- Claim C5: in a success response with a first forecast slot whose min and
max temperatures parse as integers a and b, the current temperature is the
rounded average with the °C suffix re-attached, paired with the weather
description of the first slot; in particular 20°C/24°C gives 22°C. -/
theorem c5_current_temperature (key : Option String) (q : String)
    (payload : General.CwaPayload) (d : General.WeatherData)
    (f0 : General.Forecast) (rest : List General.Forecast) (a b : Int)
    (h : (General.getGeneralWeather key (some q) payload).resp = .ok 200 d)
    (hf : d.forecasts = f0 :: rest)
    (ha : jsParseInt f0.minTemp = some a)
    (hb : jsParseInt f0.maxTemp = some b) :
    d.currentWeather.temperature =
      toString (jsRoundHalfOfSum (a + b)) ++ "°C" ∧
    d.currentWeather.weatherDescription = f0.weather ∧
    (f0.minTemp = "20°C" → f0.maxTemp = "24°C" →
      d.currentWeather.temperature = "22°C") := by
  obtain ⟨-, -, hcw⟩ := General.generalWeather_ok_shape key q payload d h
  rw [hf] at hcw
  have hred : General.currentOf (f0 :: rest) =
      ⟨General.avgTempString f0.minTemp f0.maxTemp, f0.weather⟩ := rfl
  rw [hred] at hcw
  refine ⟨?_, ?_, ?_⟩
  · rw [hcw]
    show General.avgTempString f0.minTemp f0.maxTemp = _
    simp [General.avgTempString, ha, hb]
  · rw [hcw]
  · intro h1 h2
    rw [hcw]
    show General.avgTempString f0.minTemp f0.maxTemp = "22°C"
    rw [h1, h2]
    decide

/-- Witness for C5 on the concrete 新竹縣 payload with bounds 20 and 24. -/
theorem c5_witness :
    Fixtures.hcData.currentWeather.temperature =
      toString (jsRoundHalfOfSum (20 + 24)) ++ "°C" ∧
    Fixtures.hcData.currentWeather.weatherDescription =
      Fixtures.hcForecast.weather ∧
    (Fixtures.hcForecast.minTemp = "20°C" → Fixtures.hcForecast.maxTemp = "24°C" →
      Fixtures.hcData.currentWeather.temperature = "22°C") :=
  c5_current_temperature (some "k") "新竹市" Fixtures.hcPay Fixtures.hcData
    Fixtures.hcForecast [] 20 24 (by decide) (by decide) (by decide) (by decide)

/-- Claim C6: 新竹市 resolves to the mapped key 新竹縣, which is what the
upstream is queried with, while the city field of a success response keeps the
originally requested name 新竹市; any place with no mapping entry passes
through unchanged. -/
theorem c6_name_mapping :
    General.resolveApiName "新竹市" = "新竹縣" ∧
    (∀ n, General.CWA_NAME_MAP.lookup n = none → General.resolveApiName n = n) ∧
    (∀ key payload, strFalsy key = false →
      (General.getGeneralWeather key (some "新竹市") payload).fetched =
        ["新竹縣"] ∧
      ∀ d, (General.getGeneralWeather key (some "新竹市") payload).resp =
          .ok 200 d → d.city = "新竹市") := by
  refine ⟨rfl, ?_, ?_⟩
  · intro n hn
    simp [General.resolveApiName, hn]
  · intro key payload hk
    constructor
    · unfold General.getGeneralWeather
      dsimp only
      rw [if_neg (by decide : ¬("新竹市" = "")), hk]
      simp only [Bool.false_eq_true, if_false]
      split
      · rfl
      · split <;> rfl
    · intro d hd
      exact (General.generalWeather_ok_shape key "新竹市" payload d hd).1

/-- Witness for C6 at a concrete payload holding a 新竹縣 record. -/
theorem c6_witness :
    (General.getGeneralWeather (some "k") (some "新竹市")
      Fixtures.hcPay).fetched = ["新竹縣"] ∧
    General.resolveApiName "東京都" = "東京都" :=
  ⟨(c6_name_mapping.2.2 (some "k") Fixtures.hcPay (by decide)).1,
   c6_name_mapping.2.1 "東京都" (by decide)⟩

/-- Claim C7: in the combined variant, each produced forecast slot takes its
interval and temperature from the corresponding temperature-series entry, and
its weather description from the first description entry with equal startTime,
with the placeholder N/A when the description element is absent or no entry
matches. -/
theorem c7_join_by_startTime (key : Option String) (q : String)
    (tw : Combined.TwPayload) (uv : Combined.UvPayload)
    (g0 : Combined.LocationsGroup) (loc : Combined.CLoc)
    (tempEl : Combined.WElement)
    (hq : q ≠ "") (hmem : General.TAIWAN_LOCATIONS.contains q = true)
    (hk : strFalsy key = false)
    (hg : tw.records.locations.get? 0 = some g0)
    (hloc : g0.location.find? (fun l => l.locationName = q) = some loc)
    (hT : loc.weatherElement.find? (fun e => e.elementName = "T") = some tempEl)
    (hwf : ∀ wx, loc.weatherElement.find? (fun e => e.elementName = "Wx") =
        some wx → ∀ t ∈ wx.time, (t.elementValue.idx0value).isSome) :
    ∃ d, (Combined.getCombinedWeather key (some q) tw uv).resp = .ok 200 d ∧
      ∀ i, ∀ h : i < d.forecasts.length, ∃ ts, tempEl.time.get? i = some ts ∧
        (∀ v, ts.elementValue = Combined.JsEV.obj v →
          (d.forecasts.get ⟨i, h⟩).temperature = v ++ "°C") ∧
        ((loc.weatherElement.find? (fun e => e.elementName = "Wx") = none ∨
          ∃ wx, loc.weatherElement.find? (fun e => e.elementName = "Wx") =
              some wx ∧
            wx.time.find? (fun t => t.startTime = ts.startTime) = none) →
          (d.forecasts.get ⟨i, h⟩).weatherDescription = "N/A") ∧
        (∀ wx w, loc.weatherElement.find? (fun e => e.elementName = "Wx") =
            some wx →
          wx.time.find? (fun t => t.startTime = ts.startTime) = some w →
          w.elementValue.idx0value =
            some (d.forecasts.get ⟨i, h⟩).weatherDescription) := by
  obtain ⟨fcs, hb, hlen, hslots⟩ := Combined.buildForecasts_spec loc tempEl hT hwf
  have hb2 : Combined.buildForecasts
      (g0.location.find? (fun l => l.locationName = q)) = some fcs := by
    rw [hloc]; exact hb
  obtain ⟨hok, -⟩ :=
    Combined.combined_ok_of_located key q tw uv g0 fcs hq hmem hk hg hb2
  refine ⟨_, hok, ?_⟩
  intro i h
  obtain ⟨ts, hts, hslot⟩ := hslots i h
  obtain ⟨slot2, hs2, hst, hen, htemp, hna, hdesc⟩ :=
    Combined.mkForecastSlot_spec
      (loc.weatherElement.find? (fun e => e.elementName = "Wx")) ts hwf
  rw [hslot] at hs2
  have heq : fcs.get ⟨i, h⟩ = slot2 := Option.some.inj hs2
  refine ⟨ts, hts, ?_, ?_, ?_⟩
  · intro v hv
    rw [heq, htemp, hv]
    rfl
  · intro hcase
    rw [heq]
    exact hna hcase
  · intro wx w hwx hw
    rw [heq]
    exact hdesc wx w hwx hw

/-- Witness for C7 at a concrete two-week payload whose Wx series covers only
some start times. -/
theorem c7_witness :
    ∃ d, (Combined.getCombinedWeather (some "k") (some "臺北市")
        Fixtures.twFull Fixtures.uvZero).resp = .ok 200 d ∧
      ∀ i, ∀ h : i < d.forecasts.length, ∃ ts,
        Fixtures.tEl.time.get? i = some ts ∧
        (∀ v, ts.elementValue = Combined.JsEV.obj v →
          (d.forecasts.get ⟨i, h⟩).temperature = v ++ "°C") ∧
        ((Fixtures.tpLoc.weatherElement.find?
            (fun e => e.elementName = "Wx") = none ∨
          ∃ wx, Fixtures.tpLoc.weatherElement.find?
              (fun e => e.elementName = "Wx") = some wx ∧
            wx.time.find? (fun t => t.startTime = ts.startTime) = none) →
          (d.forecasts.get ⟨i, h⟩).weatherDescription = "N/A") ∧
        (∀ wx w, Fixtures.tpLoc.weatherElement.find?
            (fun e => e.elementName = "Wx") = some wx →
          wx.time.find? (fun t => t.startTime = ts.startTime) = some w →
          w.elementValue.idx0value =
            some (d.forecasts.get ⟨i, h⟩).weatherDescription) :=
  c7_join_by_startTime (some "k") "臺北市" Fixtures.twFull Fixtures.uvZero
    ⟨"twd", [Fixtures.tpLoc]⟩ Fixtures.tpLoc Fixtures.tEl
    (by decide) (by decide) (by decide) (by decide) (by decide) (by decide)
    (fun wx hwx => by cases Option.some.inj hwx; decide)

/-- Claim C8: in the combined (truncating) variant, a success response built
from a temperature series of length m carries exactly min 5 m forecast slots,
and slot i carries the interval of the i-th series entry (upstream order). -/
theorem c8_truncation (key : Option String) (q : String)
    (tw : Combined.TwPayload) (uv : Combined.UvPayload)
    (g0 : Combined.LocationsGroup) (loc : Combined.CLoc)
    (tempEl : Combined.WElement)
    (hq : q ≠ "") (hmem : General.TAIWAN_LOCATIONS.contains q = true)
    (hk : strFalsy key = false)
    (hg : tw.records.locations.get? 0 = some g0)
    (hloc : g0.location.find? (fun l => l.locationName = q) = some loc)
    (hT : loc.weatherElement.find? (fun e => e.elementName = "T") = some tempEl)
    (hwf : ∀ wx, loc.weatherElement.find? (fun e => e.elementName = "Wx") =
        some wx → ∀ t ∈ wx.time, (t.elementValue.idx0value).isSome) :
    ∃ d, (Combined.getCombinedWeather key (some q) tw uv).resp = .ok 200 d ∧
      d.forecasts.length = min 5 tempEl.time.length ∧
      ∀ i, ∀ h : i < d.forecasts.length, ∃ ts, tempEl.time.get? i = some ts ∧
        (d.forecasts.get ⟨i, h⟩).startTime = ts.startTime ∧
        (d.forecasts.get ⟨i, h⟩).endTime = ts.endTime := by
  obtain ⟨fcs, hb, hlen, hslots⟩ := Combined.buildForecasts_spec loc tempEl hT hwf
  have hb2 : Combined.buildForecasts
      (g0.location.find? (fun l => l.locationName = q)) = some fcs := by
    rw [hloc]; exact hb
  obtain ⟨hok, -⟩ :=
    Combined.combined_ok_of_located key q tw uv g0 fcs hq hmem hk hg hb2
  refine ⟨_, hok, hlen, ?_⟩
  intro i h
  obtain ⟨ts, hts, hslot⟩ := hslots i h
  obtain ⟨slot2, hs2, hst, hen, -, -, -⟩ :=
    Combined.mkForecastSlot_spec
      (loc.weatherElement.find? (fun e => e.elementName = "Wx")) ts hwf
  rw [hslot] at hs2
  have heq : fcs.get ⟨i, h⟩ = slot2 := Option.some.inj hs2
  exact ⟨ts, hts, by rw [heq]; exact hst, by rw [heq]; exact hen⟩

/-- Witness for C8 at a six-slot temperature series (truncated to 5). -/
theorem c8_witness :
    ∃ d, (Combined.getCombinedWeather (some "k") (some "臺北市")
        Fixtures.twFull Fixtures.uvEmpty).resp = .ok 200 d ∧
      d.forecasts.length = min 5 Fixtures.tEl.time.length ∧
      ∀ i, ∀ h : i < d.forecasts.length, ∃ ts,
        Fixtures.tEl.time.get? i = some ts ∧
        (d.forecasts.get ⟨i, h⟩).startTime = ts.startTime ∧
        (d.forecasts.get ⟨i, h⟩).endTime = ts.endTime :=
  c8_truncation (some "k") "臺北市" Fixtures.twFull Fixtures.uvEmpty
    ⟨"twd", [Fixtures.tpLoc]⟩ Fixtures.tpLoc Fixtures.tEl
    (by decide) (by decide) (by decide) (by decide) (by decide) (by decide)
    (fun wx hwx => by cases Option.some.inj hwx; decide)

/-- Claim C9: in the 36-hour variant, a located, aligned payload whose first
slot has an unparseable MinT or MaxT string still yields an HTTP 200 success
response whose current temperature is the literal string NaN°C. -/
theorem c9_nan_current (key : Option String) (q : String)
    (payload : General.CwaPayload) (loc : General.LocationData) (M : Nat)
    (hq : q ≠ "") (hk : strFalsy key = false)
    (hfind : payload.records.location.find?
      (fun l => l.locationName = General.resolveApiName q) = some loc)
    (hne : loc.weatherElement ≠ [])
    (hlen : ∀ e ∈ loc.weatherElement, e.time.length = M) (hM : 0 < M) :
    ∃ d, (General.getGeneralWeather key (some q) payload).resp = .ok 200 d ∧
      d.forecasts ≠ [] ∧
      ∀ f0 rest, d.forecasts = f0 :: rest →
        (jsParseInt f0.minTemp = none ∨ jsParseInt f0.maxTemp = none) →
        d.currentWeather.temperature = "NaN°C" := by
  obtain ⟨d, hok, hcity, hlenf, hcw⟩ :=
    General.generalWeather_ok_of_located key q payload loc M hq hk hfind hne hlen
  refine ⟨d, hok, ?_, ?_⟩
  · intro hnil
    rw [hnil] at hlenf
    simp at hlenf
    omega
  · intro f0 rest hf hnan
    rw [hf] at hcw
    have hred : General.currentOf (f0 :: rest) =
        ⟨General.avgTempString f0.minTemp f0.maxTemp, f0.weather⟩ := rfl
    rw [hred] at hcw
    rw [hcw]
    show General.avgTempString f0.minTemp f0.maxTemp = "NaN°C"
    rcases hnan with hn | hn
    · cases hx : jsParseInt f0.maxTemp <;>
        simp [General.avgTempString, hn, hx]
    · cases hx : jsParseInt f0.minTemp <;>
        simp [General.avgTempString, hn, hx]

/-- Witness for C9 at a payload whose location has only a Wx element, so the
temperature bounds of the first slot stay empty strings. -/
theorem c9_witness :
    ∃ d, (General.getGeneralWeather (some "k") (some "臺北市")
        Fixtures.noTempPay).resp = .ok 200 d ∧
      d.forecasts ≠ [] ∧
      ∀ f0 rest, d.forecasts = f0 :: rest →
        (jsParseInt f0.minTemp = none ∨ jsParseInt f0.maxTemp = none) →
        d.currentWeather.temperature = "NaN°C" :=
  c9_nan_current (some "k") "臺北市" Fixtures.noTempPay Fixtures.noTempLoc 1
    (by decide) (by decide) (by decide) (by decide) (by decide) (by decide)

/-- Claim C10: in the combined variant the current UV index equals the first
element value of the located UV location exactly when that value is truthy; an absent
locations array, absent location, absent element or falsy value (including
the number 0 and the empty string) yields the placeholder N/A, and any UV
payload still produces a success response carrying that computed index. -/
theorem c10_uv_truthiness (uv : Combined.UvPayload) (q : String) :
    (uv.records.locations = [] → Combined.currentUV uv q = .str "N/A") ∧
    (∀ g gs, uv.records.locations = g :: gs →
      g.location.find? (fun l => l.locationName = q) = none →
      Combined.currentUV uv q = .str "N/A") ∧
    (∀ g gs uvLoc, uv.records.locations = g :: gs →
      g.location.find? (fun l => l.locationName = q) = some uvLoc →
      uvLoc.weatherElement.get? 0 = none →
      Combined.currentUV uv q = .str "N/A") ∧
    (∀ g gs uvLoc el, uv.records.locations = g :: gs →
      g.location.find? (fun l => l.locationName = q) = some uvLoc →
      uvLoc.weatherElement.get? 0 = some el →
      el.value.truthy = false → Combined.currentUV uv q = .str "N/A") ∧
    (∀ g gs uvLoc el, uv.records.locations = g :: gs →
      g.location.find? (fun l => l.locationName = q) = some uvLoc →
      uvLoc.weatherElement.get? 0 = some el →
      el.value.truthy = true → Combined.currentUV uv q = el.value) ∧
    (JsVal.num 0).truthy = false ∧ (JsVal.str "").truthy = false ∧
    (∀ key tw g0 fcs, strFalsy key = false → q ≠ "" →
      General.TAIWAN_LOCATIONS.contains q = true →
      tw.records.locations.get? 0 = some g0 →
      Combined.buildForecasts
        (g0.location.find? (fun l => l.locationName = q)) = some fcs →
      ∃ d, (Combined.getCombinedWeather key (some q) tw uv).resp = .ok 200 d ∧
        d.currentUVIndex = Combined.currentUV uv q) := by
  refine ⟨?_, ?_, ?_, ?_, ?_, by decide, by decide, ?_⟩
  · intro hgs
    unfold Combined.currentUV
    rw [hgs]
  · intro g gs hgs hfind
    unfold Combined.currentUV
    rw [hgs]
    dsimp only
    rw [hfind]
  · intro g gs uvLoc hgs hfind hget
    unfold Combined.currentUV
    rw [hgs]
    dsimp only
    rw [hfind]
    dsimp only
    rw [hget]
  · intro g gs uvLoc el hgs hfind hget htr
    unfold Combined.currentUV
    rw [hgs]
    dsimp only
    rw [hfind]
    dsimp only
    rw [hget]
    dsimp only
    rw [htr]
    simp
  · intro g gs uvLoc el hgs hfind hget htr
    unfold Combined.currentUV
    rw [hgs]
    dsimp only
    rw [hfind]
    dsimp only
    rw [hget]
    dsimp only
    rw [htr]
    simp
  · intro key tw g0 fcs hk hq hmem hg hb
    obtain ⟨hok, -⟩ :=
      Combined.combined_ok_of_located key q tw uv g0 fcs hq hmem hk hg hb
    exact ⟨_, hok, rfl⟩

/-- Witness for C10: a numeric UV value 0 is falsy, yields N/A, and the
request still succeeds with that index. -/
theorem c10_witness :
    Combined.currentUV Fixtures.uvZero "臺北市" = .str "N/A" ∧
    ∃ d, (Combined.getCombinedWeather (some "k") (some "臺北市")
        Fixtures.twFull Fixtures.uvZero).resp = .ok 200 d ∧
      d.currentUVIndex = Combined.currentUV Fixtures.uvZero "臺北市" := by
  constructor
  · exact (c10_uv_truthiness Fixtures.uvZero "臺北市").2.2.2.1
      ⟨[⟨"臺北市", [⟨.num 0⟩]⟩]⟩ [] ⟨"臺北市", [⟨.num 0⟩]⟩ ⟨.num 0⟩
      (by decide) (by decide) (by decide) (by decide)
  · exact (c10_uv_truthiness Fixtures.uvZero "臺北市").2.2.2.2.2.2.2
      (some "k") Fixtures.twFull ⟨"twd", [Fixtures.tpLoc]⟩
      [⟨"s1", "e1", "25°C", "多雲"⟩, ⟨"s2", "e2", "26°C", "N/A"⟩,
       ⟨"s3", "e3", "27°C", "晴"⟩, ⟨"s4", "e4", "28°C", "N/A"⟩,
       ⟨"s5", "e5", "29°C", "N/A"⟩]
      (by decide) (by decide) (by decide) (by decide) (by decide)

end Claims
